import Mathlib

/-!
Verification development for the webcam emotion-detection page
(`src/script.js`).  The script is a thin DOM/lifecycle layer over an external
face-detection library.  We shallowly embed its state (the module-level
`isVideoRunning` / `detectingInterval` / `ctx` variables together with the DOM
elements it mutates) as an explicit state record, and each of its functions
(`initEmotionsGrid`, `loadModels`, `startWebcam`, `stopWebcam`,
`detectEmotions`, `startDetection`, the toggle-button click handler and the
window load/unload handlers) as a state transformer.  The external collaborators
(model loading, `getUserMedia`, the per-tick detection call) are parameters:
each embedded function takes the outcome the collaborator produced.  JS numbers
are modelled as exact rationals; JS exceptions as `Except`, where a thrown
error carries the state at the moment of the throw (DOM mutations performed
before the throw persist, exactly as in the browser).
-/

/-- Rational multiplication computed through `mkRat`.  This is extensionally
equal to `HMul.hMul` on `Rat` (lemma `rmul_eq` below); we use it because the
library's `Rat.mul` is `@[irreducible]`, which would block kernel evaluation
of concrete witness states. -/
def rmul (a b : Rat) : Rat := mkRat (a.num * b.num) (a.den * b.den)

/-- Rational addition computed through `mkRat`; equals `a + b` (`radd_eq`). -/
def radd (a b : Rat) : Rat :=
  mkRat (a.num * (b.den : Int) + b.num * (a.den : Int)) (a.den * b.den)

/-- Rational subtraction computed through `mkRat`; equals `a - b` (`rsub_eq`). -/
def rsub (a b : Rat) : Rat :=
  mkRat (a.num * (b.den : Int) - b.num * (a.den : Int)) (a.den * b.den)

/-- JavaScript `String.prototype.toUpperCase()` restricted to the ASCII
strings this page displays, written as a character map so that the kernel can
evaluate it on literals. -/
def toUpperCase (s : String) : String := String.mk (s.data.map Char.toUpper)

/-- JavaScript `Number.prototype.toFixed(1)` for the (nonnegative) confidence
values the page formats: round `q` to the nearest tenth (ties away from zero,
as the JS spec picks the larger candidate) and print with one decimal. -/
def toFixed1 (q : Rat) : String :=
  let r : Rat := radd (rmul q 10) (mkRat 1 2)
  let n : Int := r.num.fdiv (r.den : Int)
  (if n < 0 then "-" else "") ++ toString (n.natAbs / 10) ++ "." ++ toString (n.natAbs % 10)

/-- One entry of the static `emotionMap` table: display emoji and color. -/
structure EmotionInfo where
  emoji : String
  color : String
deriving DecidableEq, Repr

/-- The fixed emotion registry of `script.js` (`const emotionMap = {...}`),
in source order. -/
def emotionMap : List (String × EmotionInfo) :=
  [("neutral", { emoji := "😐", color := "#a0aec0" }),
   ("happy", { emoji := "😊", color := "#90ee90" }),
   ("sad", { emoji := "😢", color := "#87ceeb" }),
   ("angry", { emoji := "😠", color := "#ff6b6b" }),
   ("fearful", { emoji := "😨", color := "#daa520" }),
   ("disgusted", { emoji := "🤢", color := "#98d8c8" }),
   ("surprised", { emoji := "😲", color := "#ffd700" })]

/-- The registry's label list, in iteration order. -/
def registryLabels : List String := emotionMap.map Prod.fst

/-- One `#emotion-<label>` DOM item of the emotions grid: its
`.emotion-value` text, the inline `width` style of its `.emotion-bar-fill`
(the empty string when the style is unset, as freshly built items leave it),
and whether it carries the `active` class. -/
structure EmotionItem where
  valueText : String
  barWidth : String
  active : Bool
deriving DecidableEq, Repr

/-- A drawing operation recorded on the canvas since its last full clear. -/
inductive CanvasOp where
  | strokeRect (strokeStyle : String) (lineWidth : Rat) (x y w h : Rat)
  | fillText (fillStyle : String) (font : String) (text : String) (x y : Rat)
deriving DecidableEq, Repr

/-- A face bounding box (`detection.detection.box`). -/
structure FaceBox where
  x : Rat
  y : Rat
  width : Rat
  height : Rat
deriving DecidableEq, Repr

/-- One face of a detection result: the expression-score mapping (a key/value
list in the object's iteration order, as `Object.entries` walks it) and its
bounding box.  The nested `detection.detection.box` of face-api is flattened
into the `box` field. -/
structure Detection where
  expressions : List (String × Rat)
  box : FaceBox
deriving DecidableEq, Repr

/-- The user-visible surface: the text elements, the emotions grid, the canvas
overlay, the loading indicator, the toggle button, and the `alert` dialogs
raised so far. -/
structure Display where
  emotionName : String
  emotionConfidence : String
  faceCount : String
  grid : List (String × EmotionItem)
  canvas : List CanvasOp
  loadingText : String
  loadingVisible : Bool
  toggleText : String
  toggleDisabled : Bool
  toggleActive : Bool
  alerts : List String
deriving DecidableEq, Repr

/-- The whole session state: the module-level mutable variables of
`script.js` plus the runtime's view of the media stream and timers.
`detectingInterval` is the stored interval id (`null` initially, never reset
to `null`); `activeTimers` are the interval ids the browser currently has
running; `ctx` records whether `canvas.getContext` has been called (the
variable is `null` until the first successful `startWebcam`). -/
structure AppState where
  isVideoRunning : Bool
  detectingInterval : Option Nat
  activeTimers : List Nat
  nextTimerId : Nat
  ctx : Bool
  videoSrcObject : Bool
  tracksLive : Bool
  metadataPending : Bool
  display : Display
deriving DecidableEq, Repr

/-- Grid construction, `initEmotionsGrid()`: rebuild the grid from scratch; every item shows
`0%`, has no inline bar width and no `active` class. -/
def initEmotionsGrid : List (String × EmotionItem) :=
  emotionMap.map (fun p => (p.1, { valueText := "0%", barWidth := "", active := false }))

/-- The font set before drawing the emotion label. -/
def canvasFont : String := "bold 18px Arial"

/-- The accumulator step of the dominant-emotion search
(`if (value > maxValue) { maxValue = value; maxEmotion = emotion; }`). -/
def domStep (acc p : String × Rat) : String × Rat :=
  if acc.2 < p.2 then p else acc

/-- The dominant-emotion search of `detectEmotions`: fold the expression
entries with strict greater-than updates, starting from the baseline
`maxEmotion = 'neutral'`, `maxValue = 0`. -/
def findDominant (es : List (String × Rat)) : String × Rat :=
  es.foldl domStep ("neutral", 0)

/-- The per-entry grid update of `detectEmotions`: find the element with id
`emotion-<label>` (the first grid item with that label, if any), set its
percentage text and bar width, and add or remove the `active` class according
to whether this entry is the dominant emotion.  Entries without a matching
grid item are skipped (`if (emotionItem)`)." -/
def updateGridEntry : List (String × EmotionItem) → String → Rat → String →
    List (String × EmotionItem)
  | [], _, _, _ => []
  | (l, item) :: rest, e, c, m =>
    if l = e then
      (l, { valueText := toFixed1 (rmul c 100) ++ "%",
            barWidth := toFixed1 (rmul c 100) ++ "%",
            active := decide (e = m) }) :: rest
    else
      (l, item) :: updateGridEntry rest e c m

/-- The `Object.entries(expressions).forEach` grid-update loop. -/
def updateGrid (g : List (String × EmotionItem)) (es : List (String × Rat))
    (m : String) : List (String × EmotionItem) :=
  es.foldl (fun acc p => updateGridEntry acc p.1 p.2 m) g

/-- The canvas label text: `` `${emoji} ${label.toUpperCase()} (${pct}%)` ``. -/
def drawLabel (info : EmotionInfo) (m : String) (v : Rat) : String :=
  info.emoji ++ " " ++ toUpperCase m ++ " (" ++ toFixed1 (rmul v 100) ++ "%)"

/-- The start of every successful tick: `ctx.clearRect(...)` (a full clear)
followed by the face-count update. -/
def tickClearDisplay (d : Display) (n : Nat) : Display :=
  { d with canvas := [], faceCount := "Faces Detected: " ++ toString n }

/-- The zero-face branch of the tick: reset the dominant-emotion texts and
rebuild the grid. -/
def zeroFaceDisplay (d : Display) : Display :=
  { d with emotionName := "--", emotionConfidence := "0%", grid := initEmotionsGrid }

/-- The text and grid updates of the at-least-one-face branch of the tick,
driven by the dominant emotion of the first face. -/
def onFaceDisplay (d : Display) (det : Detection) : Display :=
  let me := findDominant det.expressions
  { d with
      emotionName := toUpperCase me.1,
      emotionConfidence := toFixed1 (rmul me.2 100) ++ "%",
      grid := updateGrid d.grid det.expressions me.1 }

/-- The drawing performed after the text updates: the bounding-box rectangle
(line width 3, stroked in the dominant emotion's registered color) and the
label text above the box. -/
def faceCanvasOps (info : EmotionInfo) (det : Detection) : List CanvasOp :=
  let me := findDominant det.expressions
  [CanvasOp.strokeRect info.color 3 det.box.x det.box.y det.box.width det.box.height,
   CanvasOp.fillText info.color canvasFont (drawLabel info me.1 me.2)
     det.box.x (rsub det.box.y 10)]

/-- The body of the `try` block of `detectEmotions`, given the outcome `dets`
of the awaited detection call.  `Except.error s` means a JS exception was
thrown with the page in state `s`: the detection call itself rejected (nothing
updated yet), `ctx` is still `null` (the `clearRect` line throws), or the
dominant label is not registered (`emotionMap[maxEmotion].color` throws after
the text and grid updates have already been applied). -/
def tickBody (s : AppState) (dets : Except Unit (List Detection)) :
    Except AppState AppState :=
  match dets with
  | Except.error _ => Except.error s
  | Except.ok detections =>
    if s.ctx = false then Except.error s
    else
      let d0 : Display := tickClearDisplay s.display detections.length
      match detections with
      | [] => Except.ok { s with display := zeroFaceDisplay d0 }
      | d :: _ =>
        let d1 : Display := onFaceDisplay d0 d
        match emotionMap.lookup (findDominant d.expressions).1 with
        | none => Except.error { s with display := d1 }
        | some info =>
          Except.ok { s with display := { d1 with canvas := faceCanvasOps info d } }

/-- The tick callback `detectEmotions()`: a no-op unless the camera is running; otherwise run
the tick body and swallow any thrown error (`catch (error) { console.error }`),
keeping whatever mutations happened before the throw. -/
def detectEmotions (s : AppState) (dets : Except Unit (List Detection)) : AppState :=
  if s.isVideoRunning = false then s
  else
    match tickBody s dets with
    | Except.ok s1 => s1
    | Except.error s1 => s1

/-- Model loading, `loadModels()`, given whether the `Promise.all` of the five
`loadFromUri` calls resolved.  The rejection is caught inside `loadModels`
itself, which therefore always resolves. -/
def loadModels (s : AppState) (success : Bool) : AppState :=
  if success then
    { s with display := { s.display with loadingVisible := false, toggleDisabled := false } }
  else
    { s with display := { s.display with loadingText := "Error loading models" } }

/-- The `window` `load` handler: build the grid, disable the toggle, await
`loadModels`, then unconditionally label the toggle `Start Camera` and enable
it. -/
def windowLoad (s : AppState) (success : Bool) : AppState :=
  let s0 := { s with display := { s.display with
      grid := initEmotionsGrid, toggleDisabled := true, toggleText := "Loading Models..." } }
  let s1 := loadModels s0 success
  { s1 with display := { s1.display with
      toggleText := "Start Camera", toggleDisabled := false } }

/-- Webcam start, `startWebcam()`, given whether `getUserMedia` granted a stream.  On grant:
attach the stream, set the running flag, obtain the drawing context, and
register the `onloadedmetadata` callback (modelled by `metadataPending`).  On
denial or device error: alert the user and clear the running flag; the toggle
button is not touched here. -/
def startWebcam (s : AppState) (grant : Bool) : AppState :=
  if grant then
    { s with
        videoSrcObject := true, tracksLive := true, isVideoRunning := true,
        ctx := true, metadataPending := true }
  else
    { s with
        isVideoRunning := false,
        display := { s.display with
            alerts := s.display.alerts ++ ["Could not access webcam. Please check permissions."] } }

/-- The line `if (detectingInterval) clearInterval(detectingInterval)`: cancel the
stored interval id if one was ever stored.  The stored id is not reset. -/
def clearStoredInterval (s : AppState) : AppState :=
  match s.detectingInterval with
  | some id => { s with activeTimers := s.activeTimers.erase id }
  | none => s

/-- Track teardown, `if (video.srcObject) { ...getTracks().forEach(track => track.stop()) }`. -/
def stopTracks (s : AppState) : AppState :=
  if s.videoSrcObject then { s with tracksLive := false } else s

/-- The state of `stopWebcam` just before the `ctx.clearRect` line. -/
def stopCore (s : AppState) : AppState :=
  clearStoredInterval { stopTracks s with isVideoRunning := false }

/-- The display resets performed by the tail of `stopWebcam`. -/
def resetDisplay (d : Display) : Display :=
  { d with
      canvas := [], emotionName := "--", emotionConfidence := "0%",
      faceCount := "Faces Detected: 0", grid := initEmotionsGrid }

/-- Webcam stop, `stopWebcam()`.  If `ctx` is still `null` (the camera never started), the
`ctx.clearRect(...)` line throws a `TypeError` after the tracks/flag/timer
lines have run, and the display resets never execute. -/
def stopWebcam (s : AppState) : Except AppState AppState :=
  if (stopCore s).ctx = false then Except.error (stopCore s)
  else Except.ok { stopCore s with display := resetDisplay (stopCore s).display }

/-- Loop start, `startDetection()`: clear any stored interval, then create a fresh one. -/
def startDetection (s : AppState) : AppState :=
  let s0 := clearStoredInterval s
  { s0 with
      detectingInterval := some s0.nextTimerId,
      activeTimers := s0.activeTimers ++ [s0.nextTimerId],
      nextTimerId := s0.nextTimerId + 1 }

/-- The toggle-button click handler.  When running, call `stopWebcam` and (if
it returned normally) relabel the button; when not running, fire `startWebcam`
(the handler does not await it) and immediately label the button
`Stop Camera` and mark it active — the final state is the same whichever of
the two finishes first, since the catch branch of `startWebcam` does not touch
the button. -/
def toggleClick (s : AppState) (grant : Bool) : AppState :=
  if s.isVideoRunning then
    match stopWebcam s with
    | Except.ok s1 =>
      { s1 with display := { s1.display with
          toggleText := "Start Camera", toggleActive := false } }
    | Except.error s1 => s1
  else
    let s1 := startWebcam s grant
    { s1 with display := { s1.display with
        toggleText := "Stop Camera", toggleActive := true } }

/-- The `video.onloadedmetadata` callback: fires once after a successful
stream attach; sizes the canvas (not modelled) and starts the detection
loop. -/
def metadataLoaded (s : AppState) : AppState :=
  if s.metadataPending then startDetection { s with metadataPending := false } else s

/-- The observable events of one page visit.  Detection outcomes and
collaborator results are carried by the events, since they come from outside
the script. -/
inductive Event where
  | winLoad (success : Bool)
  | click (grant : Bool)
  | metadata
  | tick (dets : Except Unit (List Detection))
  | unload

/-- One step of the page's event loop.  A `tick` only runs its callback while
the browser has the interval active; `unload` runs the `beforeunload`
handler. -/
def step (s : AppState) (e : Event) : AppState :=
  match e with
  | Event.winLoad b => windowLoad s b
  | Event.click g => toggleClick s g
  | Event.metadata => metadataLoaded s
  | Event.tick dets => if s.activeTimers.isEmpty then s else detectEmotions s dets
  | Event.unload =>
    if s.isVideoRunning then
      match stopWebcam s with
      | Except.ok s1 => s1
      | Except.error s1 => s1
    else s

/-- Run a sequence of events. -/
def run (s : AppState) (evs : List Event) : AppState := evs.foldl step s

/-- The state when `script.js` has just executed: nothing running, no timer,
no context; the display fields model the static HTML (which is not part of
`src/`, but no claim depends on these initial texts — the load handler
overwrites all of them before anything else can happen). -/
def initState : AppState :=
  { isVideoRunning := false, detectingInterval := none, activeTimers := [],
    nextTimerId := 1, ctx := false, videoSrcObject := false, tracksLive := false,
    metadataPending := false,
    display :=
      { emotionName := "--", emotionConfidence := "0%",
        faceCount := "Faces Detected: 0", grid := [], canvas := [],
        loadingText := "Loading models...", loadingVisible := true,
        toggleText := "Start Camera", toggleDisabled := false, toggleActive := false,
        alerts := [] } }

/-- The state after a successful page load. -/
def readyState : AppState := windowLoad initState true

/-- The state after the user started the camera (permission granted), before
the metadata callback. -/
def runningState : AppState := toggleClick readyState true

/-- The state once stream metadata arrived and the detection loop started. -/
def startedState : AppState := metadataLoaded runningState

/-- The running maximum of the score values of `es`, seeded with `x`
(the second components folded with a strict-less test). -/
def maxFrom (x : Rat) (es : List (String × Rat)) : Rat :=
  es.foldl (fun m p => if m < p.2 then p.2 else m) x

/-- The highest score of the mapping, floored at the baseline value 0. -/
def maxScore (es : List (String × Rat)) : Rat := maxFrom 0 es

/-- The dominant emotion as the spec words it: "the arg-max emotion over its
score mapping, using strict greater-than comparisons with an initial baseline
so that the first-encountered label with the highest score wins ties" — i.e.
the first entry of the list, with the baseline `("neutral", 0)` standing in
front of it, whose score equals the maximum.  `findDominant` (translated from
the source) is proved equal to this. -/
def dominantSpec (es : List (String × Rat)) : String × Rat :=
  ((("neutral", 0) :: es).find? (fun p => decide (p.2 = maxScore es))).getD ("neutral", 0)

/-- The timer bookkeeping invariant of every reachable state: either no
interval is live, or exactly the stored one is. -/
def TimerInv (s : AppState) : Prop :=
  s.activeTimers = [] ∨ ∃ id, s.detectingInterval = some id ∧ s.activeTimers = [id]

/-- Whether the tick body threw (and the error was then swallowed by the
`catch`). -/
def tickThrew (s : AppState) (dets : Except Unit (List Detection)) : Bool :=
  match tickBody s dets with
  | Except.error _ => true
  | Except.ok _ => false

/-- The synthetic detection scores of the spec's worked example
(`happy: 0.82, sad: 0.10, neutral: 0.05, angry: 0.01, fearful: 0.01,
disgusted: 0.005, surprised: 0.005`), written with `mkRat` so the kernel can
evaluate them. -/
def happyExpressions : List (String × Rat) :=
  [("happy", mkRat 82 100), ("sad", mkRat 10 100), ("neutral", mkRat 5 100),
   ("angry", mkRat 1 100), ("fearful", mkRat 1 100), ("disgusted", mkRat 5 1000),
   ("surprised", mkRat 5 1000)]

/-- The spec example's detection: the scores above with box
`{x: 10, y: 20, width: 100, height: 120}`. -/
def dHappy : Detection :=
  { expressions := happyExpressions,
    box := { x := 10, y := 20, width := 100, height := 120 } }

/-- A detection whose dominant label is not in the registry: processing it
reaches `emotionMap['confused'].color`, which throws. -/
def confusedDetection : Detection :=
  { expressions := [("confused", mkRat 9 10)],
    box := { x := 0, y := 0, width := 10, height := 10 } }

/-- A detection whose scores are all exactly zero, in an order that does not
start with `neutral`. -/
def allZeroDetection : Detection :=
  { expressions := [("surprised", 0), ("happy", 0), ("neutral", 0), ("sad", 0)],
    box := { x := 1, y := 2, width := 3, height := 4 } }

/-- A detection whose mapping mentions only one registered label, leaving the
other six grid entries untouched. -/
def singleEntryDetection : Detection :=
  { expressions := [("happy", mkRat 50 100)],
    box := { x := 0, y := 0, width := 5, height := 5 } }

/-- A full-mapping detection for the unique-active-highlight witness. -/
def sadDetection : Detection :=
  { expressions := [("neutral", mkRat 1 10), ("happy", mkRat 2 10), ("sad", mkRat 6 10),
     ("angry", mkRat 5 100), ("fearful", 0), ("disgusted", 0), ("surprised", mkRat 5 100)],
    box := { x := 4, y := 5, width := 6, height := 7 } }

/-- Page load, camera start and metadata arrival: the events that bring the
page into a ticking session. -/
def sessionEvents : List Event :=
  [Event.winLoad true, Event.click true, Event.metadata]

/-! ### The mkRat-based arithmetic agrees with the ordinary field operations -/

theorem rmul_eq (a b : Rat) : rmul a b = a * b := by
  rw [rmul, Rat.mkRat_eq_div]
  push_cast
  conv_rhs => rw [← Rat.num_div_den a, ← Rat.num_div_den b, div_mul_div_comm]

theorem radd_eq (a b : Rat) : radd a b = a + b := by
  have ha : ((a.den : Rat)) ≠ 0 := by
    exact_mod_cast a.den_pos.ne'
  have hb : ((b.den : Rat)) ≠ 0 := by
    exact_mod_cast b.den_pos.ne'
  rw [radd, Rat.mkRat_eq_div]
  push_cast
  conv_rhs => rw [← Rat.num_div_den a, ← Rat.num_div_den b, div_add_div _ _ ha hb]
  ring_nf

theorem rsub_eq (a b : Rat) : rsub a b = a - b := by
  have ha : ((a.den : Rat)) ≠ 0 := by
    exact_mod_cast a.den_pos.ne'
  have hb : ((b.den : Rat)) ≠ 0 := by
    exact_mod_cast b.den_pos.ne'
  rw [rsub, Rat.mkRat_eq_div]
  push_cast
  conv_rhs => rw [← Rat.num_div_den a, ← Rat.num_div_den b, div_sub_div _ _ ha hb]
  ring_nf

/-! ### The dominant-emotion fold -/

theorem domStep_snd (a p : String × Rat) :
    (domStep a p).2 = if a.2 < p.2 then p.2 else a.2 := by
  unfold domStep
  split <;> rfl

theorem maxFrom_nil (x : Rat) : maxFrom x [] = x := rfl

theorem maxFrom_cons (x : Rat) (p : String × Rat) (es : List (String × Rat)) :
    maxFrom x (p :: es) = maxFrom (if x < p.2 then p.2 else x) es := rfl

theorem le_maxFrom (es : List (String × Rat)) : ∀ x : Rat, x ≤ maxFrom x es := by
  induction es with
  | nil => intro x; exact le_refl x
  | cons p tl ih =>
    intro x
    rw [maxFrom_cons]
    refine le_trans ?_ (ih _)
    split
    · exact le_of_lt (by assumption)
    · exact le_refl x

theorem maxFrom_mem_le (es : List (String × Rat)) :
    ∀ (x : Rat) (p : String × Rat), p ∈ es → p.2 ≤ maxFrom x es := by
  induction es with
  | nil =>
    intro x p hp
    cases hp
  | cons q tl ih =>
    intro x p hp
    rw [maxFrom_cons]
    rcases List.mem_cons.mp hp with h | h
    · subst h
      refine le_trans ?_ (le_maxFrom tl _)
      split
      · exact le_refl p.2
      · exact le_of_not_lt (by assumption)
    · exact ih _ p h

theorem maxFrom_attained (es : List (String × Rat)) :
    ∀ x : Rat, maxFrom x es = x ∨ ∃ p ∈ es, maxFrom x es = p.2 := by
  induction es with
  | nil => intro x; exact Or.inl rfl
  | cons q tl ih =>
    intro x
    rw [maxFrom_cons]
    rcases ih (if x < q.2 then q.2 else x) with h | ⟨p, hp, he⟩
    · rw [h]
      split
      · exact Or.inr ⟨q, List.mem_cons_self q tl, rfl⟩
      · exact Or.inl rfl
    · exact Or.inr ⟨p, List.mem_cons_of_mem q hp, he⟩

theorem foldDom_snd (es : List (String × Rat)) :
    ∀ a : String × Rat, (es.foldl domStep a).2 = maxFrom a.2 es := by
  induction es with
  | nil => intro a; rfl
  | cons p tl ih =>
    intro a
    rw [List.foldl_cons, ih (domStep a p), domStep_snd, maxFrom_cons]

theorem foldDom_mem (es : List (String × Rat)) :
    ∀ a : String × Rat, es.foldl domStep a = a ∨ es.foldl domStep a ∈ es := by
  induction es with
  | nil => intro a; exact Or.inl rfl
  | cons p tl ih =>
    intro a
    rw [List.foldl_cons]
    rcases ih (domStep a p) with h | h
    · rw [h]
      unfold domStep
      split
      · exact Or.inr (List.mem_cons_self p tl)
      · exact Or.inl rfl
    · exact Or.inr (List.mem_cons_of_mem p h)

theorem foldDom_const (es : List (String × Rat)) :
    ∀ a : String × Rat, (∀ p ∈ es, ¬ a.2 < p.2) → es.foldl domStep a = a := by
  induction es with
  | nil =>
    intro a _
    rfl
  | cons p tl ih =>
    intro a h
    rw [List.foldl_cons]
    have hp : domStep a p = a := by
      unfold domStep
      rw [if_neg (h p (List.mem_cons_self p tl))]
    rw [hp]
    exact ih a (fun q hq => h q (List.mem_cons_of_mem p hq))

theorem find?_cons_pos {α : Type} (p : α → Bool) (a : α) (l : List α) (h : p a = true) :
    (a :: l).find? p = some a := by
  simp [List.find?, h]

theorem find?_cons_neg {α : Type} (p : α → Bool) (a : α) (l : List α) (h : p a = false) :
    (a :: l).find? p = l.find? p := by
  simp [List.find?, h]

theorem foldDom_eq_find (es : List (String × Rat)) :
    ∀ a : String × Rat,
      es.foldl domStep a
        = ((a :: es).find? (fun p => decide (p.2 = maxFrom a.2 es))).getD a := by
  induction es with
  | nil =>
    intro a
    rw [find?_cons_pos (fun p : String × Rat => decide (p.2 = maxFrom a.2 [])) a []
      (decide_eq_true rfl)]
    rfl
  | cons e tl ih =>
    intro a
    rw [List.foldl_cons]
    have hM : maxFrom a.2 (e :: tl) = maxFrom (domStep a e).2 tl := by
      rw [maxFrom_cons, domStep_snd]
    by_cases hae : a.2 < e.2
    · have hde : domStep a e = e := by
        unfold domStep
        rw [if_pos hae]
      rw [hde] at hM
      have ha2 : a.2 < maxFrom e.2 tl := by
        refine lt_of_lt_of_le hae ?_
        exact le_maxFrom tl _
      have hpa : (fun p : String × Rat => decide (p.2 = maxFrom a.2 (e :: tl))) a = false := by
        rw [hM]
        simp only [decide_eq_false_iff_not]
        exact ne_of_lt ha2
      rw [find?_cons_neg (fun p : String × Rat => decide (p.2 = maxFrom a.2 (e :: tl)))
        a (e :: tl) hpa, ih (domStep a e), hde, ← hM]
      have hex : ∃ x ∈ e :: tl,
          (fun p : String × Rat => decide (p.2 = maxFrom a.2 (e :: tl))) x = true := by
        rw [hM]
        rcases maxFrom_attained tl e.2 with h | ⟨p, hp, hpe⟩
        · exact ⟨e, List.mem_cons_self e tl, decide_eq_true h.symm⟩
        · exact ⟨p, List.mem_cons_of_mem e hp, decide_eq_true hpe.symm⟩
      obtain ⟨y, hy⟩ := Option.isSome_iff_exists.mp (List.find?_isSome.mpr hex)
      rw [hy]
      rfl
    · have hde : domStep a e = a := by
        unfold domStep
        rw [if_neg hae]
      rw [hde] at hM
      rw [ih (domStep a e), hde, ← hM]
      by_cases haM : a.2 = maxFrom a.2 (e :: tl)
      · have hpa : (fun p : String × Rat => decide (p.2 = maxFrom a.2 (e :: tl))) a = true :=
          decide_eq_true haM
        rw [find?_cons_pos (fun p : String × Rat => decide (p.2 = maxFrom a.2 (e :: tl)))
          a tl hpa,
          find?_cons_pos (fun p : String × Rat => decide (p.2 = maxFrom a.2 (e :: tl)))
          a (e :: tl) hpa]
      · have hpa : (fun p : String × Rat => decide (p.2 = maxFrom a.2 (e :: tl))) a = false := by
          simp only [decide_eq_false_iff_not]
          exact haM
        have halt : a.2 < maxFrom a.2 (e :: tl) :=
          lt_of_le_of_ne (by rw [hM]; exact le_maxFrom tl _) haM
        have hpe : (fun p : String × Rat => decide (p.2 = maxFrom a.2 (e :: tl))) e = false := by
          simp only [decide_eq_false_iff_not]
          exact ne_of_lt (lt_of_le_of_lt (le_of_not_lt hae) halt)
        rw [find?_cons_neg (fun p : String × Rat => decide (p.2 = maxFrom a.2 (e :: tl)))
          a tl hpa,
          find?_cons_neg (fun p : String × Rat => decide (p.2 = maxFrom a.2 (e :: tl)))
          a (e :: tl) hpa,
          find?_cons_neg (fun p : String × Rat => decide (p.2 = maxFrom a.2 (e :: tl)))
          e tl hpe]

/-- The source's dominant-emotion computation agrees with the spec's wording
of it. -/
theorem findDominant_eq_dominantSpec (es : List (String × Rat)) :
    findDominant es = dominantSpec es := by
  unfold findDominant dominantSpec maxScore
  exact foldDom_eq_find es ("neutral", 0)

/-! ### The grid update -/

theorem updateGridEntry_keys (g : List (String × EmotionItem)) (e : String) (c : Rat)
    (m : String) : (updateGridEntry g e c m).map Prod.fst = g.map Prod.fst := by
  induction g with
  | nil => rfl
  | cons x tl ih =>
    obtain ⟨l, item⟩ := x
    simp only [updateGridEntry]
    split
    · simp
    · simp [ih]

theorem updateGrid_nil (g : List (String × EmotionItem)) (m : String) :
    updateGrid g [] m = g := rfl

theorem updateGrid_cons (g : List (String × EmotionItem)) (p : String × Rat)
    (tl : List (String × Rat)) (m : String) :
    updateGrid g (p :: tl) m = updateGrid (updateGridEntry g p.1 p.2 m) tl m := rfl

theorem updateGrid_keys (es : List (String × Rat)) :
    ∀ (g : List (String × EmotionItem)) (m : String),
      (updateGrid g es m).map Prod.fst = g.map Prod.fst := by
  induction es with
  | nil =>
    intro g m
    rfl
  | cons p tl ih =>
    intro g m
    rw [updateGrid_cons, ih, updateGridEntry_keys]

theorem updateGrid_length (es : List (String × Rat)) (g : List (String × EmotionItem))
    (m : String) : (updateGrid g es m).length = g.length := by
  have h := congrArg List.length (updateGrid_keys es g m)
  simpa using h

theorem updateGridEntry_getElem?_ne (g : List (String × EmotionItem)) (e : String)
    (c : Rat) (m : String) :
    ∀ (i : Nat) (l : String) (item : EmotionItem),
      g[i]? = some (l, item) → l ≠ e →
      (updateGridEntry g e c m)[i]? = some (l, item) := by
  induction g with
  | nil =>
    intro i l item h _
    simp at h
  | cons x tl ih =>
    intro i l item h hne
    obtain ⟨xl, xitem⟩ := x
    simp only [updateGridEntry]
    split
    · rename_i hxe
      cases i with
      | zero =>
        simp only [List.getElem?_cons_zero, Option.some.injEq, Prod.mk.injEq] at h
        exact absurd (hxe ▸ h.1.symm) hne
      | succ n =>
        simp only [List.getElem?_cons_succ] at h ⊢
        exact h
    · cases i with
      | zero =>
        simpa using h
      | succ n =>
        simp only [List.getElem?_cons_succ] at h ⊢
        exact ih n l item h hne

theorem updateGridEntry_getElem?_eq (g : List (String × EmotionItem)) (e : String)
    (c : Rat) (m : String) :
    ∀ (i : Nat) (l : String) (item : EmotionItem),
      (g.map Prod.fst).Nodup →
      g[i]? = some (l, item) → l = e →
      (updateGridEntry g e c m)[i]?
        = some (l, { valueText := toFixed1 (rmul c 100) ++ "%",
                     barWidth := toFixed1 (rmul c 100) ++ "%",
                     active := decide (e = m) }) := by
  induction g with
  | nil =>
    intro i l item _ h _
    simp at h
  | cons x tl ih =>
    intro i l item hnd h hle
    obtain ⟨xl, xitem⟩ := x
    have hnd2 : (tl.map Prod.fst).Nodup := (List.nodup_cons.mp (by simpa using hnd)).2
    have hxl : xl ∉ tl.map Prod.fst := (List.nodup_cons.mp (by simpa using hnd)).1
    simp only [updateGridEntry]
    split
    · rename_i hxe
      cases i with
      | zero =>
        simp only [List.getElem?_cons_zero, Option.some.injEq, Prod.mk.injEq] at h
        simp [h.1]
      | succ n =>
        exfalso
        apply hxl
        simp only [List.getElem?_cons_succ] at h
        have hmem : (l, item) ∈ tl := List.getElem?_mem h
        have : l ∈ tl.map Prod.fst := List.mem_map_of_mem Prod.fst hmem
        rw [hxe, ← hle]
        exact this
    · rename_i hxe
      cases i with
      | zero =>
        simp only [List.getElem?_cons_zero, Option.some.injEq, Prod.mk.injEq] at h
        exact absurd (h.1 ▸ hle) hxe
      | succ n =>
        simp only [List.getElem?_cons_succ] at h ⊢
        exact ih n l item hnd2 h hle

theorem updateGridEntry_not_mem (g : List (String × EmotionItem)) (e : String)
    (c : Rat) (m : String) (h : e ∉ g.map Prod.fst) :
    updateGridEntry g e c m = g := by
  induction g with
  | nil => rfl
  | cons x tl ih =>
    obtain ⟨xl, xitem⟩ := x
    have hne : xl ≠ e := by
      intro he
      exact h (by simp [he])
    have htl : e ∉ tl.map Prod.fst := by
      intro he
      exact h (by simp [he])
    simp only [updateGridEntry]
    rw [if_neg hne, ih htl]

theorem updateGrid_getElem?_not_mem (es : List (String × Rat)) :
    ∀ (g : List (String × EmotionItem)) (m : String) (i : Nat) (l : String)
      (item : EmotionItem),
      g[i]? = some (l, item) → l ∉ es.map Prod.fst →
      (updateGrid g es m)[i]? = some (l, item) := by
  induction es with
  | nil =>
    intro g m i l item h _
    exact h
  | cons p tl ih =>
    intro g m i l item h hmem
    have hne : l ≠ p.1 := by
      intro he
      exact hmem (by simp [he])
    have htl : l ∉ tl.map Prod.fst := by
      intro he
      exact hmem (by simp [he])
    rw [updateGrid_cons]
    exact ih _ m i l item (updateGridEntry_getElem?_ne g p.1 p.2 m i l item h hne) htl

theorem updateGrid_getElem?_mem_active (es : List (String × Rat)) :
    ∀ (g : List (String × EmotionItem)) (m : String) (i : Nat) (l : String)
      (item : EmotionItem),
      (g.map Prod.fst).Nodup →
      g[i]? = some (l, item) → l ∈ es.map Prod.fst →
      ∃ item2, (updateGrid g es m)[i]? = some (l, item2) ∧
        item2.active = decide (l = m) := by
  induction es with
  | nil =>
    intro g m i l item _ _ hmem
    simp at hmem
  | cons p tl ih =>
    intro g m i l item hnd h hmem
    rw [updateGrid_cons]
    have hnd1 : ((updateGridEntry g p.1 p.2 m).map Prod.fst).Nodup := by
      rw [updateGridEntry_keys]
      exact hnd
    by_cases hlp : l = p.1
    · have h1 := updateGridEntry_getElem?_eq g p.1 p.2 m i l item hnd h hlp
      by_cases hltl : l ∈ tl.map Prod.fst
      · exact ih _ m i l _ hnd1 h1 hltl
      · refine ⟨_, updateGrid_getElem?_not_mem tl _ m i l _ h1 hltl, ?_⟩
        rw [hlp]
    · have h1 := updateGridEntry_getElem?_ne g p.1 p.2 m i l item h hlp
      have hm2 : l ∈ tl.map Prod.fst := by
        rw [List.map_cons] at hmem
        rcases List.mem_cons.mp hmem with hc | hc
        · exact absurd hc hlp
        · exact hc
      exact ih _ m i l item hnd1 h1 hm2

theorem updateGrid_filter (es : List (String × Rat)) :
    ∀ (g : List (String × EmotionItem)) (m : String),
      updateGrid g es m
        = updateGrid g (es.filter (fun p => decide (p.1 ∈ g.map Prod.fst))) m := by
  induction es with
  | nil =>
    intro g m
    rfl
  | cons p tl ih =>
    intro g m
    by_cases hp : p.1 ∈ g.map Prod.fst
    · have hkeep : (p :: tl).filter (fun q => decide (q.1 ∈ g.map Prod.fst))
          = p :: tl.filter (fun q => decide (q.1 ∈ g.map Prod.fst)) := by
        simp [List.filter_cons, hp]
      rw [hkeep, updateGrid_cons, updateGrid_cons]
      have h2 := ih (updateGridEntry g p.1 p.2 m) m
      rw [updateGridEntry_keys] at h2
      exact h2
    · have hdrop : (p :: tl).filter (fun q => decide (q.1 ∈ g.map Prod.fst))
          = tl.filter (fun q => decide (q.1 ∈ g.map Prod.fst)) := by
        simp [List.filter_cons, hp]
      rw [hdrop, updateGrid_cons, updateGridEntry_not_mem g p.1 p.2 m hp]
      exact ih g m

theorem updateGrid_map_active (g : List (String × EmotionItem))
    (es : List (String × Rat)) (m : String)
    (hnd : (g.map Prod.fst).Nodup)
    (hall : ∀ l ∈ g.map Prod.fst, l ∈ es.map Prod.fst) :
    (updateGrid g es m).map (fun pr => pr.2.active)
      = (g.map Prod.fst).map (fun l => decide (l = m)) := by
  apply List.ext_getElem?
  intro i
  cases h : g[i]? with
  | none =>
    have hlen : g.length ≤ i := by
      simpa using List.getElem?_eq_none_iff.mp h
    have h1 : (updateGrid g es m)[i]? = none := by
      apply List.getElem?_eq_none_iff.mpr
      rw [updateGrid_length]
      exact hlen
    have h2 : (g.map Prod.fst)[i]? = none := by
      apply List.getElem?_eq_none_iff.mpr
      simpa using hlen
    simp [List.getElem?_map, h1, h2, h]
  | some pr =>
    obtain ⟨l, item⟩ := pr
    have hl : l ∈ g.map Prod.fst :=
      List.mem_map_of_mem Prod.fst (List.getElem?_mem h)
    obtain ⟨item2, h2, ha⟩ :=
      updateGrid_getElem?_mem_active es g m i l item hnd h (hall l hl)
    have h3 : (g.map Prod.fst)[i]? = some l := by
      simp [List.getElem?_map, h]
    simp [List.getElem?_map, h2, h3, ha, h]

theorem updateGrid_countP_active (g : List (String × EmotionItem))
    (es : List (String × Rat)) (m : String)
    (hnd : (g.map Prod.fst).Nodup)
    (hall : ∀ l ∈ g.map Prod.fst, l ∈ es.map Prod.fst) :
    (updateGrid g es m).countP (fun pr => pr.2.active)
      = (g.map Prod.fst).countP (fun l => decide (l = m)) := by
  have h1 : (updateGrid g es m).countP (fun pr => pr.2.active)
      = ((updateGrid g es m).map (fun pr => pr.2.active)).countP (fun b => b) := by
    rw [List.countP_map]
    rfl
  rw [h1, updateGrid_map_active g es m hnd hall, List.countP_map]
  rfl

theorem registry_countP_one (m : String) (hm : m ∈ registryLabels) :
    registryLabels.countP (fun l => decide (l = m)) = 1 := by
  fin_cases hm <;> decide

/-! ### The detection tick -/

theorem detectEmotions_not_running (s : AppState) (dets : Except Unit (List Detection))
    (h : s.isVideoRunning = false) : detectEmotions s dets = s := by
  simp [detectEmotions, h]

theorem detectEmotions_err (s : AppState) : detectEmotions s (Except.error ()) = s := by
  unfold detectEmotions tickBody
  split <;> rfl

theorem detectEmotions_ok_nil (s : AppState) (hrun : s.isVideoRunning = true)
    (hctx : s.ctx = true) :
    detectEmotions s (Except.ok []) =
      { s with display := zeroFaceDisplay (tickClearDisplay s.display 0) } := by
  unfold detectEmotions tickBody
  rw [hrun, hctx]
  simp

theorem detectEmotions_ok_cons (s : AppState) (d : Detection) (rest : List Detection)
    (hrun : s.isVideoRunning = true) (hctx : s.ctx = true) :
    detectEmotions s (Except.ok (d :: rest))
      = match emotionMap.lookup (findDominant d.expressions).1 with
        | none =>
          { s with display := onFaceDisplay (tickClearDisplay s.display (d :: rest).length) d }
        | some info =>
          { s with display :=
              { onFaceDisplay (tickClearDisplay s.display (d :: rest).length) d with
                  canvas := faceCanvasOps info d } } := by
  unfold detectEmotions tickBody
  rw [hrun, hctx]
  cases hl : emotionMap.lookup (findDominant d.expressions).1 <;> simp [hl]

theorem detect_onface_fields (s : AppState) (d : Detection) (rest : List Detection)
    (hrun : s.isVideoRunning = true) (hctx : s.ctx = true) :
    (detectEmotions s (Except.ok (d :: rest))).display.emotionName
        = toUpperCase (findDominant d.expressions).1 ∧
    (detectEmotions s (Except.ok (d :: rest))).display.emotionConfidence
        = toFixed1 (rmul (findDominant d.expressions).2 100) ++ "%" ∧
    (detectEmotions s (Except.ok (d :: rest))).display.grid
        = updateGrid s.display.grid d.expressions (findDominant d.expressions).1 := by
  rw [detectEmotions_ok_cons s d rest hrun hctx]
  cases hl : emotionMap.lookup (findDominant d.expressions).1 <;>
    simp [hl, onFaceDisplay, tickClearDisplay]

theorem detect_onface_canvas (s : AppState) (d : Detection) (rest : List Detection)
    (hrun : s.isVideoRunning = true) (hctx : s.ctx = true) (info : EmotionInfo)
    (hinfo : emotionMap.lookup (findDominant d.expressions).1 = some info) :
    (detectEmotions s (Except.ok (d :: rest))).display.canvas = faceCanvasOps info d := by
  rw [detectEmotions_ok_cons s d rest hrun hctx, hinfo]

theorem detectEmotions_frame (s : AppState) (dets : Except Unit (List Detection)) :
    (detectEmotions s dets).isVideoRunning = s.isVideoRunning ∧
    (detectEmotions s dets).detectingInterval = s.detectingInterval ∧
    (detectEmotions s dets).activeTimers = s.activeTimers ∧
    (detectEmotions s dets).nextTimerId = s.nextTimerId ∧
    (detectEmotions s dets).display.alerts = s.display.alerts := by
  unfold detectEmotions
  split
  · exact ⟨rfl, rfl, rfl, rfl, rfl⟩
  · unfold tickBody
    cases dets with
    | error e => simp
    | ok detections =>
      by_cases hctx : s.ctx = false
      · simp [hctx]
      · cases detections with
        | nil =>
          simp [hctx, zeroFaceDisplay, tickClearDisplay]
        | cons d rest =>
          cases hl : emotionMap.lookup (findDominant d.expressions).1 <;>
            simp [hctx, hl, onFaceDisplay, tickClearDisplay]

/-! ### Webcam lifecycle and timer bookkeeping -/

theorem TimerInv_transport (s t : AppState)
    (hdi : t.detectingInterval = s.detectingInterval)
    (hat : t.activeTimers = s.activeTimers) (h : TimerInv s) : TimerInv t := by
  rcases h with h | ⟨id, h1, h2⟩
  · exact Or.inl (hat.trans h)
  · exact Or.inr ⟨id, hdi.trans h1, hat.trans h2⟩

theorem stopCore_timers (s : AppState) (hinv : TimerInv s) :
    (stopCore s).activeTimers = [] := by
  obtain ⟨run, di, ats, nid, ctx, vso, trl, mp, disp⟩ := s
  rcases hinv with h | ⟨id, hdi, hat⟩
  · simp only at h
    subst h
    unfold stopCore clearStoredInterval stopTracks
    cases di <;> cases vso <;> simp
  · simp only at hdi hat
    subst hdi hat
    unfold stopCore clearStoredInterval stopTracks
    cases vso <;> simp

theorem stopCore_ctx (s : AppState) : (stopCore s).ctx = s.ctx := by
  obtain ⟨run, di, ats, nid, ctx, vso, trl, mp, disp⟩ := s
  unfold stopCore clearStoredInterval stopTracks
  cases di <;> cases vso <;> simp

theorem stopCore_display (s : AppState) : (stopCore s).display = s.display := by
  obtain ⟨run, di, ats, nid, ctx, vso, trl, mp, disp⟩ := s
  unfold stopCore clearStoredInterval stopTracks
  cases di <;> cases vso <;> simp

theorem stopCore_running (s : AppState) : (stopCore s).isVideoRunning = false := by
  obtain ⟨run, di, ats, nid, ctx, vso, trl, mp, disp⟩ := s
  unfold stopCore clearStoredInterval stopTracks
  cases di <;> cases vso <;> simp

theorem stopWebcam_ok (s : AppState) (hctx : s.ctx = true) :
    stopWebcam s
      = Except.ok { stopCore s with display := resetDisplay (stopCore s).display } := by
  unfold stopWebcam
  rw [stopCore_ctx s, hctx]
  simp

theorem toggleClick_stop_timers (s : AppState) (g : Bool) (hr : s.isVideoRunning = true)
    (hinv : TimerInv s) : (toggleClick s g).activeTimers = [] := by
  have hc := stopCore_timers s hinv
  unfold toggleClick
  rw [hr]
  by_cases hcf : (stopCore s).ctx = false
  · unfold stopWebcam
    rw [if_pos hcf]
    simpa using hc
  · unfold stopWebcam
    rw [if_neg hcf]
    simpa using hc

theorem unload_stop_timers (s : AppState) (hr : s.isVideoRunning = true)
    (hinv : TimerInv s) : (step s Event.unload).activeTimers = [] := by
  have hc := stopCore_timers s hinv
  unfold step
  rw [hr]
  by_cases hcf : (stopCore s).ctx = false
  · unfold stopWebcam
    rw [if_pos hcf]
    simpa using hc
  · unfold stopWebcam
    rw [if_neg hcf]
    simpa using hc

theorem startDetection_timers (s : AppState) (hinv : TimerInv s) :
    (startDetection s).activeTimers = [(clearStoredInterval s).nextTimerId] ∧
    (startDetection s).detectingInterval = some (clearStoredInterval s).nextTimerId := by
  have h : (clearStoredInterval s).activeTimers = [] := by
    rcases hinv with h | ⟨id, hdi, hat⟩
    · obtain ⟨run, di, ats, nid, ctx, vso, trl, mp, disp⟩ := s
      simp only at h
      subst h
      unfold clearStoredInterval
      cases di <;> simp
    · obtain ⟨run, di, ats, nid, ctx, vso, trl, mp, disp⟩ := s
      simp only at hdi hat
      subst hdi hat
      unfold clearStoredInterval
      simp
  constructor
  · simp [startDetection, h]
  · simp [startDetection]

theorem step_TimerInv (s : AppState) (e : Event) (hinv : TimerInv s) :
    TimerInv (step s e) := by
  cases e with
  | winLoad b =>
    refine TimerInv_transport s _ ?_ ?_ hinv <;>
      cases b <;> simp [step, windowLoad, loadModels]
  | click g =>
    by_cases hr : s.isVideoRunning = true
    · exact Or.inl (toggleClick_stop_timers s g hr hinv)
    · have hr2 : s.isVideoRunning = false := by simpa using hr
      refine TimerInv_transport s _ ?_ ?_ hinv <;>
        cases g <;> simp [step, toggleClick, startWebcam, hr2]
  | metadata =>
    by_cases hp : s.metadataPending = true
    · have hinv2 : TimerInv { s with metadataPending := false } :=
        TimerInv_transport s _ (by simp) (by simp) hinv
      have h := startDetection_timers { s with metadataPending := false } hinv2
      have hstep : step s Event.metadata
          = startDetection { s with metadataPending := false } := by
        simp [step, metadataLoaded, hp]
      rw [hstep]
      exact Or.inr ⟨_, h.2, h.1⟩
    · have hp2 : s.metadataPending = false := by simpa using hp
      have hstep : step s Event.metadata = s := by simp [step, metadataLoaded, hp2]
      rw [hstep]
      exact hinv
  | tick dets =>
    by_cases h : s.activeTimers.isEmpty = true
    · rw [show step s (Event.tick dets) = s from by simp [step, h]]
      exact hinv
    · have hstep : step s (Event.tick dets) = detectEmotions s dets := by
        simp [step, h]
      rw [hstep]
      exact TimerInv_transport s _ ((detectEmotions_frame s dets).2.1)
        ((detectEmotions_frame s dets).2.2.1) hinv
  | unload =>
    by_cases hr : s.isVideoRunning = true
    · exact Or.inl (unload_stop_timers s hr hinv)
    · have hr2 : s.isVideoRunning = false := by simpa using hr
      rw [show step s Event.unload = s from by simp [step, hr2]]
      exact hinv

theorem run_cons (s : AppState) (e : Event) (evs : List Event) :
    run s (e :: evs) = run (step s e) evs := rfl

theorem run_TimerInv (evs : List Event) :
    ∀ s : AppState, TimerInv s → TimerInv (run s evs) := by
  induction evs with
  | nil =>
    intro s h
    exact h
  | cons e tl ih =>
    intro s h
    rw [run_cons]
    exact ih _ (step_TimerInv s e h)

theorem initState_TimerInv : TimerInv initState := Or.inl rfl

theorem step_tick_noop (s : AppState) (dets : Except Unit (List Detection))
    (h : s.activeTimers = []) : step s (Event.tick dets) = s := by
  simp [step, h]

theorem run_ticks_noop (ts : List (Except Unit (List Detection))) :
    ∀ s : AppState, s.activeTimers = [] → run s (ts.map Event.tick) = s := by
  induction ts with
  | nil =>
    intro s _
    rfl
  | cons d tl ih =>
    intro s h
    rw [List.map_cons, run_cons, step_tick_noop s d h]
    exact ih s h

/-! ### The claims -/

/-- C1: the claim says a model-load failure must leave the start control
disabled for the rest of the session, with a visible error message, and the
control is never enabled.  Evaluating the embedded load path at the failing
input shows the code violates the disabled part: `loadModels` swallows the
rejection (only its success path enables the button), but the `window` load
handler then unconditionally runs `toggleBtn.disabled = false` and relabels
the button `Start Camera`, so after a load failure the error message is shown
and yet the start control is enabled. -/
theorem c1_load_failure_still_enables_toggle :
    (windowLoad initState false).display.loadingText = "Error loading models" ∧
    (windowLoad initState false).display.loadingVisible = true ∧
    (windowLoad initState false).display.toggleDisabled = false ∧
    (windowLoad initState false).display.toggleText = "Start Camera" :=
  ⟨rfl, rfl, rfl, rfl⟩

/-- C2 (counterexample): clicking start on a loaded page with camera access
denied leaves the toggle showing `Stop Camera` with the `active` class — not
the `Start Camera` state the claim requires — because the click handler sets
the stop label without awaiting `startWebcam`, and the error path never
resets it. -/
theorem c2_counterexample :
    (toggleClick readyState false).isVideoRunning = false ∧
    (toggleClick readyState false).display.toggleText = "Stop Camera" ∧
    ¬ (toggleClick readyState false).display.toggleText = "Start Camera" ∧
    (toggleClick readyState false).display.toggleActive = true :=
  ⟨rfl, rfl, by decide, rfl⟩

/-- C2 (amended): when camera access is denied during a start click, the
running flag is left `false`, the alert `Could not access webcam. Please
check permissions.` is surfaced, and nothing retries; however the toggle
shows the `Stop Camera` state (label and active highlight), since the click
handler applies it regardless of the denial. -/
theorem c2_denial_leaves_running_false (s : AppState) (h : s.isVideoRunning = false) :
    (toggleClick s false).isVideoRunning = false ∧
    (toggleClick s false).display.alerts
      = s.display.alerts ++ ["Could not access webcam. Please check permissions."] ∧
    (toggleClick s false).display.toggleText = "Stop Camera" ∧
    (toggleClick s false).display.toggleActive = true := by
  unfold toggleClick startWebcam
  rw [h]
  simp

theorem c2_denial_leaves_running_false_witness :
    readyState.isVideoRunning = false ∧
    ((toggleClick readyState false).isVideoRunning = false ∧
     (toggleClick readyState false).display.alerts
       = readyState.display.alerts
           ++ ["Could not access webcam. Please check permissions."] ∧
     (toggleClick readyState false).display.toggleText = "Stop Camera" ∧
     (toggleClick readyState false).display.toggleActive = true) :=
  ⟨rfl, c2_denial_leaves_running_false readyState rfl⟩

/-- C6: a tick whose detection result has zero faces resets the
dominant-emotion display to `--` and `0%` and rebuilds the whole emotions
grid, whose seven freshly built entries all show `0%`, have no inline bar
width and carry no active highlight. -/
theorem c6_zero_faces_resets_display (s : AppState) (hrun : s.isVideoRunning = true)
    (hctx : s.ctx = true) :
    (detectEmotions s (Except.ok [])).display.emotionName = "--" ∧
    (detectEmotions s (Except.ok [])).display.emotionConfidence = "0%" ∧
    (detectEmotions s (Except.ok [])).display.grid = initEmotionsGrid ∧
    initEmotionsGrid.length = 7 ∧
    (∀ pr ∈ initEmotionsGrid,
      pr.2.valueText = "0%" ∧ pr.2.barWidth = "" ∧ pr.2.active = false) := by
  rw [detectEmotions_ok_nil s hrun hctx]
  refine ⟨by simp [zeroFaceDisplay, tickClearDisplay],
    by simp [zeroFaceDisplay, tickClearDisplay],
    by simp [zeroFaceDisplay, tickClearDisplay], by decide, by decide⟩

theorem c6_zero_faces_resets_display_witness :
    runningState.isVideoRunning = true ∧ runningState.ctx = true ∧
    ((detectEmotions runningState (Except.ok [])).display.emotionName = "--" ∧
     (detectEmotions runningState (Except.ok [])).display.emotionConfidence = "0%" ∧
     (detectEmotions runningState (Except.ok [])).display.grid = initEmotionsGrid ∧
     initEmotionsGrid.length = 7 ∧
     (∀ pr ∈ initEmotionsGrid,
       pr.2.valueText = "0%" ∧ pr.2.barWidth = "" ∧ pr.2.active = false)) :=
  ⟨rfl, rfl, c6_zero_faces_resets_display runningState rfl rfl⟩

/-- C7 (counterexample): a tick whose first face's top-scoring label is not
registered (`confused`) makes the tick body throw at
`emotionMap[maxEmotion].color` — the error is caught — yet the display is not
left unchanged: the dominant-emotion name was already set to `CONFUSED`
before the throw, so the update is partial, refuting the claim's atomicity
part. -/
theorem c7_counterexample :
    tickThrew runningState (Except.ok [confusedDetection]) = true ∧
    (detectEmotions runningState (Except.ok [confusedDetection])).display.emotionName
      = "CONFUSED" ∧
    runningState.display.emotionName = "--" ∧
    ¬ (detectEmotions runningState (Except.ok [confusedDetection])).display
        = runningState.display :=
  ⟨rfl, by decide, rfl, by decide⟩

/-- C7 (amended): every per-tick error is caught and logged only — the tick
is a total state transformer, the detection loop's timers are untouched, and
no alert is raised; when the detection call itself rejects, the whole display
is unchanged for that tick.  (An error thrown in mid-tick processing, however,
leaves the updates made before the throw in place, as the counterexample
shows.) -/
theorem c7_tick_errors_swallowed (s : AppState) (dets : Except Unit (List Detection)) :
    (detectEmotions s dets).activeTimers = s.activeTimers ∧
    (detectEmotions s dets).detectingInterval = s.detectingInterval ∧
    (detectEmotions s dets).display.alerts = s.display.alerts ∧
    detectEmotions s (Except.error ()) = s :=
  ⟨(detectEmotions_frame s dets).2.2.1, (detectEmotions_frame s dets).2.1,
    (detectEmotions_frame s dets).2.2.2.2, detectEmotions_err s⟩

/-- C9: when every score of the first face's mapping is 0, no entry beats the
baseline's strict greater-than test, so the dominant emotion stays the
baseline `neutral` with value 0, displayed as `NEUTRAL` and `0.0%`, whatever
the mapping's iteration order. -/
theorem c9_all_zero_scores_neutral (s : AppState) (d : Detection)
    (rest : List Detection) (hrun : s.isVideoRunning = true) (hctx : s.ctx = true)
    (hz : ∀ p ∈ d.expressions, p.2 = 0) :
    (detectEmotions s (Except.ok (d :: rest))).display.emotionName = "NEUTRAL" ∧
    (detectEmotions s (Except.ok (d :: rest))).display.emotionConfidence = "0.0%" := by
  have hdom : findDominant d.expressions = ("neutral", 0) := by
    unfold findDominant
    apply foldDom_const
    intro p hp
    rw [hz p hp]
    simp
  obtain ⟨h1, h2, _⟩ := detect_onface_fields s d rest hrun hctx
  rw [h1, h2, hdom]
  exact ⟨by decide, by decide⟩

theorem c9_all_zero_scores_neutral_witness :
    runningState.isVideoRunning = true ∧ runningState.ctx = true ∧
    (∀ p ∈ allZeroDetection.expressions, p.2 = 0) ∧
    ((detectEmotions runningState (Except.ok [allZeroDetection])).display.emotionName
        = "NEUTRAL" ∧
     (detectEmotions runningState
        (Except.ok [allZeroDetection])).display.emotionConfidence = "0.0%") :=
  ⟨rfl, rfl, by decide,
    c9_all_zero_scores_neutral runningState allZeroDetection [] rfl rfl (by decide)⟩

/-- C3 (counterexample): in the state where the camera was never started,
`ctx` is still `null`, so `stopWebcam`'s `ctx.clearRect(...)` line throws a
`TypeError` — `stop()` is not throw-free on every session state. -/
theorem c3_counterexample_stop_throws :
    stopWebcam initState = Except.error initState := rfl

/-- C3 (amended): on every session state in which a drawing context has been
obtained (every state after a successful `startWebcam`, satisfying the timer
invariant every reachable state has), `stopWebcam` does not throw, it reaches
the full reset state (running flag false, timer cancelled, canvas cleared,
`--`, `0%`, zero face count, freshly rebuilt grid), and a second call returns
the very same state; only the never-started state (`ctx` null) throws. -/
theorem c3_stop_idempotent (s : AppState) (hctx : s.ctx = true) (hinv : TimerInv s) :
    ∃ s1 : AppState, stopWebcam s = Except.ok s1 ∧ stopWebcam s1 = Except.ok s1 ∧
      s1.isVideoRunning = false ∧ s1.activeTimers = [] ∧
      s1.display.canvas = [] ∧ s1.display.emotionName = "--" ∧
      s1.display.emotionConfidence = "0%" ∧
      s1.display.faceCount = "Faces Detected: 0" ∧
      s1.display.grid = initEmotionsGrid := by
  obtain ⟨run, di, ats, nid, ctx, vso, trl, mp, disp⟩ := s
  simp only at hctx
  subst hctx
  rcases hinv with h | ⟨id, hdi, hat⟩
  · simp only at h
    subst h
    cases di <;> cases vso <;>
      exact ⟨_, rfl, rfl, rfl, rfl, rfl, rfl, rfl, rfl, rfl⟩
  · simp only at hdi hat
    subst hdi
    subst hat
    cases vso with
    | false =>
      refine ⟨⟨false, some id, [], nid, true, false, trl, mp, resetDisplay disp⟩,
        ?_, rfl, rfl, rfl, rfl, rfl, rfl, rfl, rfl⟩
      unfold stopWebcam stopCore clearStoredInterval stopTracks
      simp [List.erase_cons_head]
    | true =>
      refine ⟨⟨false, some id, [], nid, true, true, false, mp, resetDisplay disp⟩,
        ?_, rfl, rfl, rfl, rfl, rfl, rfl, rfl, rfl⟩
      unfold stopWebcam stopCore clearStoredInterval stopTracks
      simp [List.erase_cons_head]

theorem c3_stop_idempotent_witness :
    startedState.ctx = true ∧ TimerInv startedState ∧
    (∃ s1 : AppState, stopWebcam startedState = Except.ok s1 ∧
      stopWebcam s1 = Except.ok s1 ∧
      s1.isVideoRunning = false ∧ s1.activeTimers = [] ∧
      s1.display.canvas = [] ∧ s1.display.emotionName = "--" ∧
      s1.display.emotionConfidence = "0%" ∧
      s1.display.faceCount = "Faces Detected: 0" ∧
      s1.display.grid = initEmotionsGrid) :=
  ⟨rfl, Or.inr ⟨1, rfl, rfl⟩,
    c3_stop_idempotent startedState rfl (Or.inr ⟨1, rfl, rfl⟩)⟩

/-- C8: over every event sequence from the initial state, at most one
detection interval is live (the stored-timer invariant), and once a running
session is stopped through the toggle, the timer list is empty and any number
of subsequent timer ticks leaves the state — display included — exactly
unchanged. -/
theorem c8_single_timer_and_stop_cancels (evs : List Event) (g : Bool)
    (ts : List (Except Unit (List Detection))) :
    (run initState evs).activeTimers.length ≤ 1 ∧
    ((run initState evs).isVideoRunning = true →
      (step (run initState evs) (Event.click g)).activeTimers = [] ∧
      run (step (run initState evs) (Event.click g)) (ts.map Event.tick)
        = step (run initState evs) (Event.click g)) := by
  have hinv := run_TimerInv evs initState initState_TimerInv
  constructor
  · rcases hinv with h | ⟨id, _, h⟩
    · rw [h]
      simp
    · rw [h]
      simp
  · intro hr
    have h0 : (step (run initState evs) (Event.click g)).activeTimers = [] :=
      toggleClick_stop_timers (run initState evs) g hr hinv
    exact ⟨h0, run_ticks_noop ts _ h0⟩

theorem c8_single_timer_and_stop_cancels_witness :
    (run initState sessionEvents).isVideoRunning = true ∧
    (run initState sessionEvents).activeTimers.length ≤ 1 ∧
    (step (run initState sessionEvents) (Event.click true)).activeTimers = [] ∧
    run (step (run initState sessionEvents) (Event.click true))
        ([Except.ok ([] : List Detection)].map Event.tick)
      = step (run initState sessionEvents) (Event.click true) := by
  have h := c8_single_timer_and_stop_cancels sessionEvents true [Except.ok []]
  exact ⟨rfl, h.1, (h.2 rfl).1, (h.2 rfl).2⟩

/-- C4: on a tick with at least one face, the displayed dominant emotion is
exactly the spec's arg-max (`dominantSpec`: strict greater-than comparisons
from the baseline, first-encountered highest label winning ties; proved equal
to the source's fold), rendered upper-cased with its confidence to one
decimal place, and the overlay holds the bounding-box rectangle in the
dominant emotion's registered color (line width 3) plus the emoji/label text.
The witness instantiates the spec's worked example (happy 0.82 …, box
10/20/100/120 → `HAPPY`, `82.0%`, a `#90ee90` rectangle at the box). -/
theorem c4_dominant_argmax_rendering (s : AppState) (d : Detection)
    (rest : List Detection) (hrun : s.isVideoRunning = true) (hctx : s.ctx = true)
    (info : EmotionInfo)
    (hinfo : emotionMap.lookup (dominantSpec d.expressions).1 = some info) :
    (detectEmotions s (Except.ok (d :: rest))).display.emotionName
        = toUpperCase (dominantSpec d.expressions).1 ∧
    (detectEmotions s (Except.ok (d :: rest))).display.emotionConfidence
        = toFixed1 (rmul (dominantSpec d.expressions).2 100) ++ "%" ∧
    (detectEmotions s (Except.ok (d :: rest))).display.canvas
        = [CanvasOp.strokeRect info.color 3 d.box.x d.box.y d.box.width d.box.height,
           CanvasOp.fillText info.color canvasFont
             (info.emoji ++ " " ++ toUpperCase (dominantSpec d.expressions).1 ++ " ("
               ++ toFixed1 (rmul (dominantSpec d.expressions).2 100) ++ "%)")
             d.box.x (rsub d.box.y 10)] := by
  have hd := findDominant_eq_dominantSpec d.expressions
  obtain ⟨h1, h2, _⟩ := detect_onface_fields s d rest hrun hctx
  have hinfo2 : emotionMap.lookup (findDominant d.expressions).1 = some info := by
    rw [hd]
    exact hinfo
  have h3 := detect_onface_canvas s d rest hrun hctx info hinfo2
  rw [h1, h2, h3, hd]
  refine ⟨rfl, rfl, ?_⟩
  simp [faceCanvasOps, drawLabel, hd]

theorem c4_dominant_argmax_rendering_witness :
    runningState.isVideoRunning = true ∧ runningState.ctx = true ∧
    emotionMap.lookup (dominantSpec dHappy.expressions).1
      = some { emoji := "😊", color := "#90ee90" } ∧
    (detectEmotions runningState (Except.ok [dHappy])).display.emotionName
      = "HAPPY" ∧
    (detectEmotions runningState (Except.ok [dHappy])).display.emotionConfidence
      = "82.0%" ∧
    (detectEmotions runningState (Except.ok [dHappy])).display.canvas
      = [CanvasOp.strokeRect "#90ee90" 3 10 20 100 120,
         CanvasOp.fillText "#90ee90" canvasFont "😊 HAPPY (82.0%)" 10 10] := by
  have h := c4_dominant_argmax_rendering runningState dHappy [] rfl rfl
    { emoji := "😊", color := "#90ee90" } (by decide)
  refine ⟨rfl, rfl, by decide, ?_, ?_, ?_⟩
  · rw [h.1]
    decide
  · rw [h.2.1]
    decide
  · rw [h.2.2]
    decide

/-- C5: on a tick with at least one face whose expression mapping carries
exactly the seven registered labels (in any order, scores nonnegative),
exactly one grid entry carries the active highlight afterwards; every active
entry's label is the computed dominant one, and that label appears in the
mapping with the maximum score of the tick's first face. -/
theorem c5_unique_active_highlight (s : AppState) (d : Detection)
    (rest : List Detection) (hrun : s.isVideoRunning = true) (hctx : s.ctx = true)
    (hg : s.display.grid.map Prod.fst = registryLabels)
    (hperm : (d.expressions.map Prod.fst).Perm registryLabels)
    (hpos : ∀ p ∈ d.expressions, 0 ≤ p.2) :
    (detectEmotions s (Except.ok (d :: rest))).display.grid.countP
        (fun pr => pr.2.active) = 1 ∧
    (∀ pr ∈ (detectEmotions s (Except.ok (d :: rest))).display.grid,
       pr.2.active = true → pr.1 = (findDominant d.expressions).1) ∧
    (∃ v, ((findDominant d.expressions).1, v) ∈ d.expressions ∧
       ∀ p ∈ d.expressions, p.2 ≤ v) := by
  obtain ⟨_, _, hgr⟩ := detect_onface_fields s d rest hrun hctx
  have hnd : (s.display.grid.map Prod.fst).Nodup := by
    rw [hg]
    decide
  have hall : ∀ l ∈ s.display.grid.map Prod.fst, l ∈ d.expressions.map Prod.fst := by
    intro l hl
    rw [hg] at hl
    exact hperm.mem_iff.mpr hl
  have hm : (findDominant d.expressions).1 ∈ registryLabels := by
    rcases foldDom_mem d.expressions ("neutral", 0) with h | h
    · have hne : (findDominant d.expressions).1 = "neutral" := by
        unfold findDominant
        rw [h]
      rw [hne]
      decide
    · have hk : (findDominant d.expressions).1 ∈ d.expressions.map Prod.fst := by
        unfold findDominant
        exact List.mem_map_of_mem Prod.fst h
      exact hperm.mem_iff.mp hk
  refine ⟨?_, ?_, ?_⟩
  · rw [hgr, updateGrid_countP_active _ _ _ hnd hall, hg]
    exact registry_countP_one _ hm
  · intro pr hpr hact
    rw [hgr] at hpr
    obtain ⟨i, hi⟩ := List.getElem?_of_mem hpr
    cases hq : s.display.grid[i]? with
    | none =>
      exfalso
      have hnone : (updateGrid s.display.grid d.expressions
          (findDominant d.expressions).1)[i]? = none := by
        apply List.getElem?_eq_none_iff.mpr
        rw [updateGrid_length]
        simpa using List.getElem?_eq_none_iff.mp hq
      rw [hi] at hnone
      simp at hnone
    | some q =>
      have hq2 : s.display.grid[i]? = some (q.1, q.2) := by
        rw [hq]
      have hmem : q.1 ∈ d.expressions.map Prod.fst :=
        hall q.1 (List.mem_map_of_mem Prod.fst (List.getElem?_mem hq))
      obtain ⟨item2, h2, ha⟩ := updateGrid_getElem?_mem_active d.expressions
        s.display.grid (findDominant d.expressions).1 i q.1 q.2 hnd hq2 hmem
      rw [hi] at h2
      have hpr2 : pr = (q.1, item2) := Option.some.inj h2
      have hq1 : pr.1 = q.1 := by rw [hpr2]
      have hact2 : item2.active = true := by
        rw [hpr2] at hact
        exact hact
      rw [ha] at hact2
      rw [hq1]
      exact of_decide_eq_true hact2
  · rcases foldDom_mem d.expressions ("neutral", 0) with h | h
    · have hl : (findDominant d.expressions).1 = "neutral" := by
        unfold findDominant
        rw [h]
      have hv : maxFrom 0 d.expressions = 0 := by
        have hs := foldDom_snd d.expressions ("neutral", 0)
        rw [h] at hs
        exact hs.symm
      have hn : "neutral" ∈ d.expressions.map Prod.fst := hperm.mem_iff.mpr (by decide)
      obtain ⟨p, hp, hp1⟩ := List.mem_map.mp hn
      have hp2 : p.2 = 0 := by
        have h3 : p.2 ≤ 0 := hv ▸ maxFrom_mem_le d.expressions 0 p hp
        exact le_antisymm h3 (hpos p hp)
      refine ⟨p.2, ?_, ?_⟩
      · rw [hl, ← hp1]
        exact hp
      · intro q hq
        rw [hp2, ← hv]
        exact maxFrom_mem_le d.expressions 0 q hq
    · refine ⟨(findDominant d.expressions).2, ?_, ?_⟩
      · unfold findDominant
        exact h
      · intro q hq
        have h2 : (findDominant d.expressions).2 = maxFrom 0 d.expressions :=
          foldDom_snd d.expressions ("neutral", 0)
        rw [h2]
        exact maxFrom_mem_le d.expressions 0 q hq

theorem c5_unique_active_highlight_witness :
    runningState.isVideoRunning = true ∧ runningState.ctx = true ∧
    runningState.display.grid.map Prod.fst = registryLabels ∧
    (sadDetection.expressions.map Prod.fst).Perm registryLabels ∧
    (∀ p ∈ sadDetection.expressions, 0 ≤ p.2) ∧
    (detectEmotions runningState (Except.ok [sadDetection])).display.grid.countP
        (fun pr => pr.2.active) = 1 ∧
    (∃ v, ((findDominant sadDetection.expressions).1, v) ∈ sadDetection.expressions ∧
       ∀ p ∈ sadDetection.expressions, p.2 ≤ v) := by
  have h := c5_unique_active_highlight runningState sadDetection [] rfl rfl
    (by decide) (by decide) (by decide)
  exact ⟨rfl, rfl, by decide, by decide, by decide, h.1, h.2.2⟩

/-- C10: a tick with at least one face updates only the grid entries whose
labels occur in the first face's mapping — any grid entry whose label is
absent keeps its exact position and contents (value text, bar width, active
state), and mapping entries whose labels have no grid item are ignored, so
the update equals the update by the grid-registered entries alone. -/
theorem c10_untouched_grid_entries (s : AppState) (d : Detection)
    (rest : List Detection) (hrun : s.isVideoRunning = true) (hctx : s.ctx = true) :
    (detectEmotions s (Except.ok (d :: rest))).display.grid.length
        = s.display.grid.length ∧
    (∀ (i : Nat) (l : String) (item : EmotionItem),
       s.display.grid[i]? = some (l, item) →
       l ∉ d.expressions.map Prod.fst →
       (detectEmotions s (Except.ok (d :: rest))).display.grid[i]? = some (l, item)) ∧
    (updateGrid s.display.grid d.expressions (findDominant d.expressions).1
       = updateGrid s.display.grid
           (d.expressions.filter
             (fun p => decide (p.1 ∈ s.display.grid.map Prod.fst)))
           (findDominant d.expressions).1) := by
  obtain ⟨_, _, hgr⟩ := detect_onface_fields s d rest hrun hctx
  refine ⟨?_, ?_, ?_⟩
  · rw [hgr, updateGrid_length]
  · intro i l item h hmem
    rw [hgr]
    exact updateGrid_getElem?_not_mem d.expressions s.display.grid _ i l item h hmem
  · exact updateGrid_filter d.expressions s.display.grid _

theorem c10_untouched_grid_entries_witness :
    runningState.isVideoRunning = true ∧ runningState.ctx = true ∧
    runningState.display.grid[0]?
      = some ("neutral", { valueText := "0%", barWidth := "", active := false }) ∧
    "neutral" ∉ singleEntryDetection.expressions.map Prod.fst ∧
    (detectEmotions runningState (Except.ok [singleEntryDetection])).display.grid[0]?
      = some ("neutral", { valueText := "0%", barWidth := "", active := false }) ∧
    (detectEmotions runningState (Except.ok [singleEntryDetection])).display.grid.length
      = runningState.display.grid.length := by
  have h := c10_untouched_grid_entries runningState singleEntryDetection [] rfl rfl
  exact ⟨rfl, rfl, by decide, by decide,
    h.2.1 0 "neutral" { valueText := "0%", barWidth := "", active := false }
      (by decide) (by decide), h.1⟩
